import Mathlib

/-!
Verification of the chat-completion gateway (`multiple-ai-model-chat`).

Shallow embedding of the core request-validation / provider-routing /
error-normalization layer:

* `src/app/api/ai-chat/types.ts` — shared data model, the
  `API_ERROR_MESSAGES` table and the `createErrorResponse` normalizer;
* `src/app/api/ai-chat/route.ts` — the router `POST` handler;
* `src/app/api/ai-chat/openai/route.ts`, `.../gemini/route.ts`,
  `.../deepseek/route.ts` — the three provider adapter `POST` handlers.

Remote providers and the process environment are modelled as explicit
parameters (an upstream-outcome record per adapter, a `hasKey` flag for
each credential); each handler model additionally reports the list of
outbound provider calls it performed, so "no network call occurred" is
expressible.  The opaque `details` diagnostic payload carried alongside
errors is not modelled: no verified property inspects its value.
-/

namespace AiChat

/-- The closed error taxonomy `ErrorType` from `types.ts`. -/
inductive ErrorType where
  | API_ERROR
  | VALIDATION_ERROR
  | CONFIGURATION_ERROR
  | UNSUPPORTED_MODEL
  | RATE_LIMIT_ERROR
  | AUTHENTICATION_ERROR
  | NETWORK_ERROR
  | UNKNOWN_ERROR
deriving DecidableEq, Repr

/-- The `ChatError` shape from `types.ts` (`ChatErrorImpl` instances): message,
HTTP status code, taxonomy type and optional suggestion.  The opaque
`details` field is omitted (see module docstring). -/
structure ChatError where
  message : String
  statusCode : Nat
  type : ErrorType
  suggestion : Option String
deriving DecidableEq, Repr

/-- One entry of the `API_ERROR_MESSAGES` table. -/
structure ErrorInfo where
  message : String
  type : ErrorType
  suggestion : Option String
deriving DecidableEq, Repr

/-- The `API_ERROR_MESSAGES` table from `types.ts`: a string-keyed record mapping
status-code keys (and the `NETWORK` / `MODEL` keys) to user-facing
error info; lookup of any other key yields `none` (JS `undefined`). -/
def API_ERROR_MESSAGES (key : String) : Option ErrorInfo :=
  if key = "429" then
    some ⟨"The selected AI model is currently at capacity.",
      ErrorType.API_ERROR,
      some "Please try again later or select a different model."⟩
  else if key = "401" then
    some ⟨"API key is invalid or not configured.",
      ErrorType.AUTHENTICATION_ERROR,
      some "Please check your API key in the settings."⟩
  else if key = "403" then
    some ⟨"Access to the AI model is forbidden.",
      ErrorType.AUTHENTICATION_ERROR,
      some "Please verify your API key and permissions."⟩
  else if key = "500" then
    some ⟨"The AI service is experiencing issues.",
      ErrorType.API_ERROR,
      some "Please try again later or contact support if the issue persists."⟩
  else if key = "503" then
    some ⟨"The AI service is temporarily unavailable.",
      ErrorType.API_ERROR,
      some "Please try again in a few minutes."⟩
  else if key = "400" then
    some ⟨"Invalid request format.",
      ErrorType.VALIDATION_ERROR,
      some "Please check your input and try again."⟩
  else if key = "NETWORK" then
    some ⟨"Unable to connect to the AI service.",
      ErrorType.NETWORK_ERROR,
      some "Please check your internet connection and try again."⟩
  else if key = "MODEL" then
    some ⟨"The selected model is not available.",
      ErrorType.API_ERROR,
      some "Please try a different model or check the model's status."⟩
  else
    none

/-- Tests whether the first character list starts with the second. -/
def charsStartWith : List Char → List Char → Bool
  | _, [] => true
  | [], _ :: _ => false
  | a :: as, b :: bs => a = b && charsStartWith as bs

/-- Tests whether `s` contains `pat` as a contiguous run, on character lists. -/
def charsContain : List Char → List Char → Bool
  | [], pat => pat.isEmpty
  | c :: rest, pat => charsStartWith (c :: rest) pat || charsContain rest pat

/-- JavaScript `String.prototype.includes`. -/
def strIncludes (s pat : String) : Bool :=
  charsContain s.data pat.data

/-- The `response` object attached to a provider error caught in
`createErrorResponse`: `response.status` (a number; `0` models a falsy
status) and `response.data?.error?.message` (absent or a string). -/
structure ErrResponse where
  status : Nat
  dataErrorMessage : Option String
deriving DecidableEq, Repr

/-- A thrown JavaScript value, as inspected by `createErrorResponse`:
a `ChatErrorImpl` instance, a plain `Error` (with its `message` and an
optional attached `response`), or any non-`Error` value. -/
inductive ErrVal where
  | chatErr (e : ChatError)
  | jsError (message : String) (response : Option ErrResponse)
  | other
deriving DecidableEq, Repr

/-- JS `a || b` on an optional string: `b` when `a` is absent or empty. -/
def orElseStr (a : Option String) (b : String) : String :=
  match a with
  | some s => if s = "" then b else s
  | none => b

/-- The default-branch result of `createErrorResponse`. -/
def defaultChatError (defaultMessage : String) : ChatError :=
  ⟨defaultMessage, 500, ErrorType.UNKNOWN_ERROR,
    some "Please try again later or contact support if the issue persists."⟩

/-- The network-keyword check and default branch of
`createErrorResponse`, reached when the value is an `Error` without a
truthy `response.status`. -/
def networkOrDefault (msg defaultMessage : String) : ChatError :=
  if strIncludes msg "network" || strIncludes msg "connect" then
    ⟨"Unable to connect to the AI service.", 503, ErrorType.NETWORK_ERROR,
      some "Please check your internet connection and try again."⟩
  else
    defaultChatError defaultMessage

/-- The `createErrorResponse` normalizer from `types.ts`.  The default the source gives
`defaultMessage` is `"An unexpected error occurred"`; callers of the
model pass it explicitly. -/
def createErrorResponse (error : ErrVal) (defaultMessage : String) : ChatError :=
  match error with
  | ErrVal.chatErr e => e
  | ErrVal.jsError msg resp =>
    match resp with
    | some r =>
      if r.status ≠ 0 then
        let s := Nat.repr r.status
        let info := (API_ERROR_MESSAGES s).getD
          ⟨"API Error (" ++ s ++ "): " ++ orElseStr r.dataErrorMessage msg,
            ErrorType.API_ERROR, some "Please try again later."⟩
        ⟨info.message, r.status, info.type, info.suggestion⟩
      else networkOrDefault msg defaultMessage
    | none => networkOrDefault msg defaultMessage
  | ErrVal.other => defaultChatError defaultMessage

/-! ## Request data model and validation (`chatRequestSchema`) -/

/-- The `MessageRole` enumeration from `types.ts`. -/
inductive MessageRole where
  | user
  | assistant
  | system
deriving DecidableEq, Repr

/-- The `AIModel` enumeration from `types.ts`. -/
inductive AIModel where
  | openai
  | gemini
  | deepseek
deriving DecidableEq, Repr

/-- A raw inbound message, before the handlers' cleaning step: `role`
is an arbitrary string (or absent), `content` a string (or absent). -/
structure RawMsg where
  role : Option String
  content : Option String
deriving DecidableEq, Repr

/-- The `messages` field of a raw inbound JSON body: absent, present
but not an array, or an array of message objects. -/
inductive MessagesField where
  | absent
  | notArray
  | arr (ms : List RawMsg)
deriving DecidableEq, Repr

/-- A Gemini provider role label: `assistant` maps to `model`, all
other roles to `user`. -/
inductive GemRole where
  | user
  | model
deriving DecidableEq, Repr

/-- One entry of the `contents` array sent to Gemini: a role label and
a list of text parts. -/
structure GemContent where
  role : GemRole
  parts : List String
deriving DecidableEq, Repr

/-- A JSON-ish value, rich enough for the provider request bodies the
handlers build and for client-supplied `parameters` entries.  An
OpenAI message triple is `(role, content, name)`; `name` (and the
unrepresented `function_call`) are always absent after cleaning. -/
inductive JVal where
  | str (s : String)
  | num (q : ℚ)
  | bool (b : Bool)
  | dsMessages (ms : List (MessageRole × String))
  | oaiMessages (ms : List (MessageRole × String × Option String))
  | gemContents (cs : List GemContent)
deriving DecidableEq, Repr

/-- A JS object as an association list; later bindings shadow earlier
ones, as with object spread. -/
abbrev JObj := List (String × JVal)

/-- Key lookup on a `JObj`: the last binding for the key wins (JS
spread/literal semantics). -/
def JObj.get (o : JObj) (k : String) : Option JVal :=
  (List.lookup k o.reverse)

/-- A raw inbound JSON body, as destructured by the handlers. -/
structure RawBody where
  model : Option String
  messages : MessagesField
  stream : Option Bool
  parameters : Option JObj
deriving DecidableEq, Repr

/-- A message after the cleaning step `{role: msg.role,
content: msg.content?.trim() || ""}` — note `name` / `function_call`
are dropped by the cleaning projection. -/
structure CleanedMsg where
  role : Option String
  content : String
deriving DecidableEq, Repr

/-- Leading- and trailing-whitespace removal on character lists. -/
def trimChars (l : List Char) : List Char :=
  ((l.dropWhile Char.isWhitespace).reverse.dropWhile Char.isWhitespace).reverse

/-- JavaScript `String.prototype.trim` (JS whitespace is modelled by
`Char.isWhitespace`). -/
def jsTrim (s : String) : String :=
  ⟨trimChars s.data⟩

/-- The cleaning expression `msg.content?.trim() || ""`: absent content and whitespace-only
content both become the empty string. -/
def cleanContent (c : Option String) : String :=
  match c with
  | none => ""
  | some s => if jsTrim s = "" then "" else jsTrim s

/-- The cleaning projection applied to one raw message. -/
def cleanMsg (m : RawMsg) : CleanedMsg :=
  ⟨m.role, cleanContent m.content⟩

/-- The map `body.messages.map(msg => ...)`: throws a `TypeError` when
`messages` is absent (`undefined` has no properties) or not an array
(no callable `map`); otherwise maps the cleaning projection. -/
def cleanMessages : MessagesField → Except String (List CleanedMsg)
  | MessagesField.absent =>
    Except.error "Cannot read properties of undefined (reading map)"
  | MessagesField.notArray =>
    Except.error "body.messages.map is not a function"
  | MessagesField.arr ms => Except.ok (ms.map cleanMsg)

/-- The schema field `z.enum(["openai", "gemini", "deepseek"])`. -/
def parseModel : Option String → Option AIModel
  | some "openai" => some AIModel.openai
  | some "gemini" => some AIModel.gemini
  | some "deepseek" => some AIModel.deepseek
  | _ => none

/-- The schema field `z.enum(["user", "assistant", "system"])`. -/
def parseRole : Option String → Option MessageRole
  | some "user" => some MessageRole.user
  | some "assistant" => some MessageRole.assistant
  | some "system" => some MessageRole.system
  | _ => none

/-- A message accepted by `chatRequestSchema`.  `name` and
`function_call` are optional in the schema and always absent after
cleaning, so they are represented by their parsed (absent) value. -/
structure ValidMsg where
  role : MessageRole
  content : String
deriving DecidableEq, Repr

/-- Schema validation of one cleaned message: `role` must be in the
enum; `content` is `z.string().min(0)`, i.e. any string of length ≥ 0
is accepted. -/
def validateMsg (m : CleanedMsg) : Option ValidMsg :=
  match parseRole m.role with
  | some r => if m.content.length ≥ 0 then some ⟨r, m.content⟩ else none
  | none => none

/-- A request accepted by `chatRequestSchema`. -/
structure ChatRequest where
  model : AIModel
  messages : List ValidMsg
  stream : Option Bool
  parameters : Option JObj
deriving DecidableEq, Repr

/-- The parse `chatRequestSchema.safeParse({...body, messages: cleanedMessages})`:
the `model` enum, each message, and the optional `stream` /
`parameters` fields (already well-typed in `RawBody`). -/
def validateBody (b : RawBody) (cleaned : List CleanedMsg) : Option ChatRequest :=
  match parseModel b.model with
  | none => none
  | some md =>
    match cleaned.mapM validateMsg with
    | none => none
    | some ms => some ⟨md, ms, b.stream, b.parameters⟩

/-- The `ChatErrorImpl` thrown by every handler on schema-validation
failure. -/
def validationChatError : ChatError :=
  ⟨"Invalid request format", 400, ErrorType.VALIDATION_ERROR,
    some "Please check your message format and try again."⟩

/-! ## Handler outcomes -/

/-- Token usage statistics, as extracted by the OpenAI adapter. -/
structure Usage where
  promptTokens : Nat
  completionTokens : Nat
  totalTokens : Nat
deriving DecidableEq, Repr

/-- The JSON body a handler returns (`NextResponse.json(...)`):
success bodies carry `reply` (and possibly `usage`); failure bodies
carry `reply: ""` plus `error`, `errorType`, `suggestion`.  The opaque
`details` field is omitted (see module docstring). -/
structure RespBody where
  reply : String
  error : Option String
  errorType : Option ErrorType
  suggestion : Option String
  usage : Option Usage
deriving DecidableEq, Repr

/-- The failure body every handler builds from a normalized
`ChatError`. -/
def errorRespBody (e : ChatError) : RespBody :=
  ⟨"", some e.message, some e.type, e.suggestion, none⟩

/-- A success body carrying only `reply`. -/
def replyRespBody (reply : String) : RespBody :=
  ⟨reply, none, none, none, none⟩

/-- What a provider-adapter handler did: the response body, the HTTP
status, and the provider request bodies it sent upstream (in order). -/
structure AdapterOutcome where
  body : RespBody
  status : Nat
  providerCalls : List JObj
deriving DecidableEq, Repr

/-- An adapter outcome for a normalized error, with no further
provider call recorded beyond `calls`. -/
def errorOutcome (e : ChatError) (calls : List JObj) : AdapterOutcome :=
  ⟨errorRespBody e, e.statusCode, calls⟩

/-! ## DeepSeek adapter (`deepseek/route.ts`) -/

/-- The `ChatErrorImpl` thrown when `DEEPSEEK_API_KEY` is absent. -/
def dsConfigError : ChatError :=
  ⟨"DeepSeek API key is not configured", 500, ErrorType.CONFIGURATION_ERROR,
    some "Please configure your DeepSeek API key in the environment variables."⟩

/-- The DeepSeek request body: fixed fields spread-merged with the
client `parameters` bag (later bindings win on lookup). -/
def dsRequestBody (messages : List ValidMsg) (params : JObj) : JObj :=
  ([("model", JVal.str "deepseek-chat"),
    ("messages", JVal.dsMessages (messages.map fun m => (m.role, m.content))),
    ("temperature", JVal.num (7 / 10)),
    ("max_tokens", JVal.num 1000)] : JObj) ++ params

/-- The mocked DeepSeek transport: either `axios.post` rejects with a
thrown value, or it resolves with
`res.data.choices?.[0]?.message?.content` (absent modelled `none`). -/
structure DSUpstream where
  throws : Option ErrVal
  content : Option String
deriving DecidableEq, Repr

/-- The DeepSeek `POST` handler.  `hasKey` models the presence of the
`DEEPSEEK_API_KEY` environment variable. -/
def deepseekPOST (hasKey : Bool) (body : RawBody) (up : DSUpstream) : AdapterOutcome :=
  if hasKey = false then
    errorOutcome
      (createErrorResponse (ErrVal.chatErr dsConfigError) "An unexpected error occurred") []
  else
    match cleanMessages body.messages with
    | Except.error msg =>
      errorOutcome
        (createErrorResponse (ErrVal.jsError msg none) "An unexpected error occurred") []
    | Except.ok cleaned =>
      match validateBody body cleaned with
      | none =>
        errorOutcome
          (createErrorResponse (ErrVal.chatErr validationChatError)
            "An unexpected error occurred") []
      | some req =>
        let reqBody := dsRequestBody req.messages (req.parameters.getD [])
        match up.throws with
        | some v =>
          errorOutcome (createErrorResponse v "Failed to get response from DeepSeek") [reqBody]
        | none => ⟨replyRespBody (up.content.getD ""), 200, [reqBody]⟩

/-! ## OpenAI adapter (`openai/route.ts`) -/

/-- The `ChatErrorImpl` thrown when `OPENAI_API_KEY` is absent. -/
def oaiConfigError : ChatError :=
  ⟨"OpenAI API key is not configured", 500, ErrorType.CONFIGURATION_ERROR,
    some "Please configure your OpenAI API key in the environment variables."⟩

/-- The argument object of `openai.chat.completions.create`: config
defaults plus `stream`, spread-merged with the `parameters` bag. -/
def oaiCreateBody (messages : List ValidMsg) (stream : Option Bool) (params : JObj) : JObj :=
  ([("model", JVal.str "gpt-3.5-turbo"),
    ("messages",
      JVal.oaiMessages (messages.map fun m => (m.role, m.content, (none : Option String)))),
    ("temperature", JVal.num (7 / 10)),
    ("max_tokens", JVal.num 1000),
    ("top_p", JVal.num 1),
    ("presence_penalty", JVal.num 0),
    ("frequency_penalty", JVal.num 0),
    ("stream", JVal.bool (stream.getD false))] : JObj) ++ params

/-- The streaming accumulation loop of the OpenAI adapter:
`fullContent += chunk.choices[0]?.delta?.content || ""` over the
chunks in arrival order. -/
def accumChunks (chunks : List (Option String)) : String :=
  chunks.foldl (fun acc c => acc ++ c.getD "") ""

/-- The mocked OpenAI SDK: the `create` call either throws, or (with
`stream` truthy) yields `chunks` of incremental delta content, or
(non-streaming) resolves with the first choice's message content and
optional usage counts. -/
structure OAIUpstream where
  throws : Option ErrVal
  chunks : List (Option String)
  content : Option String
  usage : Option Usage
deriving DecidableEq, Repr

/-- The OpenAI `POST` handler.  `hasKey` models the presence of the
`OPENAI_API_KEY` environment variable. -/
def openaiPOST (hasKey : Bool) (body : RawBody) (up : OAIUpstream) : AdapterOutcome :=
  if hasKey = false then
    errorOutcome
      (createErrorResponse (ErrVal.chatErr oaiConfigError) "An unexpected error occurred") []
  else
    match cleanMessages body.messages with
    | Except.error msg =>
      errorOutcome
        (createErrorResponse (ErrVal.jsError msg none) "An unexpected error occurred") []
    | Except.ok cleaned =>
      match validateBody body cleaned with
      | none =>
        errorOutcome
          (createErrorResponse (ErrVal.chatErr validationChatError)
            "An unexpected error occurred") []
      | some req =>
        let reqBody := oaiCreateBody req.messages req.stream (req.parameters.getD [])
        match up.throws with
        | some v =>
          errorOutcome (createErrorResponse v "Failed to get response from OpenAI") [reqBody]
        | none =>
          if req.stream = some true then
            ⟨⟨accumChunks up.chunks, none, none, none, none⟩, 200, [reqBody]⟩
          else
            ⟨⟨up.content.getD "", none, none, none, up.usage⟩, 200, [reqBody]⟩

/-! ## Gemini adapter (`gemini/route.ts`) -/

/-- The `ChatErrorImpl` thrown when `GEMINI_API_KEY` is absent. -/
def gemConfigError : ChatError :=
  ⟨"Gemini API key is not configured", 500, ErrorType.CONFIGURATION_ERROR,
    some "Please configure your Gemini API key in the environment variables."⟩

/-- The Gemini message formatting:
`{role: msg.role === "assistant" ? "model" : "user",
parts: [{text: msg.content}]}`. -/
def geminiContents (messages : List ValidMsg) : List GemContent :=
  messages.map fun m =>
    ⟨if m.role = MessageRole.assistant then GemRole.model else GemRole.user, [m.content]⟩

/-- The argument object of `generateContent` /
`generateContentStream`. -/
def geminiCallBody (contents : List GemContent) : JObj :=
  [("model", JVal.str "gemini-2.0-flash-001"),
   ("contents", JVal.gemContents contents)]

/-- The streaming accumulation loop of the Gemini adapter:
`if (chunk.text) { fullContent += chunk.text }` over the chunks in
arrival order. -/
def geminiAccum (chunks : List (Option String)) : String :=
  chunks.foldl
    (fun acc c =>
      match c with
      | some s => if s = "" then acc else acc ++ s
      | none => acc) ""

/-- The mocked Gemini SDK: the call either throws, or (streaming)
yields `chunks` of incremental text, or (non-streaming) resolves with
`response.candidates?.[0]?.content?.parts?.[0]?.text` (modelled
`none` when there are no candidates). -/
structure GemUpstream where
  throws : Option ErrVal
  chunks : List (Option String)
  candidateText : Option String
deriving DecidableEq, Repr

/-- The Gemini `POST` handler.  `hasKey` models the presence of the
`GEMINI_API_KEY` environment variable. -/
def geminiPOST (hasKey : Bool) (body : RawBody) (up : GemUpstream) : AdapterOutcome :=
  if hasKey = false then
    errorOutcome
      (createErrorResponse (ErrVal.chatErr gemConfigError) "An unexpected error occurred") []
  else
    match cleanMessages body.messages with
    | Except.error msg =>
      errorOutcome
        (createErrorResponse (ErrVal.jsError msg none) "An unexpected error occurred") []
    | Except.ok cleaned =>
      match validateBody body cleaned with
      | none =>
        errorOutcome
          (createErrorResponse (ErrVal.chatErr validationChatError)
            "An unexpected error occurred") []
      | some req =>
        let contents := geminiContents req.messages
        match up.throws with
        | some v =>
          errorOutcome (createErrorResponse v "Failed to get response from Gemini")
            [geminiCallBody contents]
        | none =>
          if req.stream = some true then
            ⟨replyRespBody (geminiAccum up.chunks), 200, [geminiCallBody contents]⟩
          else
            ⟨replyRespBody (up.candidateText.getD ""), 200, [geminiCallBody contents]⟩

/-! ## Router (`route.ts`) -/

/-- What the router did: the forwarded (or self-built) response body,
its HTTP status, and which adapters it dispatched to via `fetch`. -/
structure RouterOutcome where
  body : RespBody
  status : Nat
  adapterCalls : List AIModel
deriving DecidableEq, Repr

/-- The router `POST` handler.  `adapters` is the mocked adapter layer
(the `fetch` of the per-model route): it yields the response body and
status the router forwards verbatim.  The `switch` is driven by the
validated `model`, so its defensive `UNSUPPORTED_MODEL` default branch
is unreachable, exactly as in the source. -/
def routerPOST (body : RawBody) (adapters : AIModel → RespBody × Nat) : RouterOutcome :=
  match cleanMessages body.messages with
  | Except.error msg =>
    let e := createErrorResponse (ErrVal.jsError msg none) "An unexpected error occurred"
    ⟨errorRespBody e, e.statusCode, []⟩
  | Except.ok cleaned =>
    match validateBody body cleaned with
    | none =>
      let e := createErrorResponse (ErrVal.chatErr validationChatError)
        "An unexpected error occurred"
      ⟨errorRespBody e, e.statusCode, []⟩
    | some req =>
      let r := adapters req.model
      ⟨r.1, r.2, [req.model]⟩

/-- Truthiness of `apiError?.response?.status`. -/
def respHasStatus : Option ErrResponse → Bool
  | none => false
  | some r => r.status ≠ 0

/-! ## Theorems -/

set_option maxHeartbeats 1000000 in
set_option maxRecDepth 10000 in
/-- Every decimal rendering of a three-digit status outside the
numeric keys of `API_ERROR_MESSAGES` misses the table. -/
lemma api_messages_miss (s : Nat) (h2 : s < 600) (h1 : 100 ≤ s)
    (h : s ∉ ([429, 401, 403, 400, 500, 503] : List Nat)) :
    API_ERROR_MESSAGES (Nat.repr s) = none := by
  revert h2 h1 h
  revert s
  decide

/-- Evaluation of `createErrorResponse` on a status the table
recognizes. -/
lemma createErrorResponse_hit (emsg dmsg : String) (dataMsg : Option String)
    (s : Nat) (hs0 : s ≠ 0) (info : ErrorInfo)
    (hl : API_ERROR_MESSAGES (Nat.repr s) = some info) :
    createErrorResponse (ErrVal.jsError emsg (some ⟨s, dataMsg⟩)) dmsg
      = ⟨info.message, s, info.type, info.suggestion⟩ := by
  simp [createErrorResponse, hs0, hl]

/-- C1: for a thrown value carrying upstream HTTP status `s`,
`createErrorResponse` keeps `statusCode = s` and classifies by the
fixed table: 429 ↦ `API_ERROR` with the capacity wording, 401/403 ↦
`AUTHENTICATION_ERROR`, 400 ↦ `VALIDATION_ERROR`, 500/503 ↦
`API_ERROR`; any other status falls back to `API_ERROR` with a message
carrying the raw status and the upstream-supplied message text. -/
theorem createErrorResponse_status_table
    (s : Nat) (emsg dmsg : String) (dataMsg : Option String)
    (hs : 100 ≤ s ∧ s < 600) :
    (createErrorResponse (ErrVal.jsError emsg (some ⟨s, dataMsg⟩)) dmsg).statusCode = s
    ∧ (s = 429 →
        (createErrorResponse (ErrVal.jsError emsg (some ⟨s, dataMsg⟩)) dmsg).type
            = ErrorType.API_ERROR
        ∧ (createErrorResponse (ErrVal.jsError emsg (some ⟨s, dataMsg⟩)) dmsg).message
            = "The selected AI model is currently at capacity.")
    ∧ (s = 401 →
        (createErrorResponse (ErrVal.jsError emsg (some ⟨s, dataMsg⟩)) dmsg).type
          = ErrorType.AUTHENTICATION_ERROR)
    ∧ (s = 403 →
        (createErrorResponse (ErrVal.jsError emsg (some ⟨s, dataMsg⟩)) dmsg).type
          = ErrorType.AUTHENTICATION_ERROR)
    ∧ (s = 400 →
        (createErrorResponse (ErrVal.jsError emsg (some ⟨s, dataMsg⟩)) dmsg).type
          = ErrorType.VALIDATION_ERROR)
    ∧ (s = 500 →
        (createErrorResponse (ErrVal.jsError emsg (some ⟨s, dataMsg⟩)) dmsg).type
          = ErrorType.API_ERROR)
    ∧ (s = 503 →
        (createErrorResponse (ErrVal.jsError emsg (some ⟨s, dataMsg⟩)) dmsg).type
          = ErrorType.API_ERROR)
    ∧ (s ∉ ([429, 401, 403, 400, 500, 503] : List Nat) →
        (createErrorResponse (ErrVal.jsError emsg (some ⟨s, dataMsg⟩)) dmsg).type
            = ErrorType.API_ERROR
        ∧ (createErrorResponse (ErrVal.jsError emsg (some ⟨s, dataMsg⟩)) dmsg).message
            = "API Error (" ++ Nat.repr s ++ "): " ++ orElseStr dataMsg emsg) := by
  obtain ⟨h1, h2⟩ := hs
  have hs0 : s ≠ 0 := by omega
  refine ⟨?_, ?_, ?_, ?_, ?_, ?_, ?_, ?_⟩
  · simp [createErrorResponse, hs0]
  · rintro rfl
    rw [createErrorResponse_hit emsg dmsg dataMsg 429 (by decide)
      ⟨"The selected AI model is currently at capacity.", ErrorType.API_ERROR,
        some "Please try again later or select a different model."⟩ (by decide)]
    exact ⟨rfl, rfl⟩
  · rintro rfl
    rw [createErrorResponse_hit emsg dmsg dataMsg 401 (by decide)
      ⟨"API key is invalid or not configured.", ErrorType.AUTHENTICATION_ERROR,
        some "Please check your API key in the settings."⟩ (by decide)]
  · rintro rfl
    rw [createErrorResponse_hit emsg dmsg dataMsg 403 (by decide)
      ⟨"Access to the AI model is forbidden.", ErrorType.AUTHENTICATION_ERROR,
        some "Please verify your API key and permissions."⟩ (by decide)]
  · rintro rfl
    rw [createErrorResponse_hit emsg dmsg dataMsg 400 (by decide)
      ⟨"Invalid request format.", ErrorType.VALIDATION_ERROR,
        some "Please check your input and try again."⟩ (by decide)]
  · rintro rfl
    rw [createErrorResponse_hit emsg dmsg dataMsg 500 (by decide)
      ⟨"The AI service is experiencing issues.", ErrorType.API_ERROR,
        some "Please try again later or contact support if the issue persists."⟩ (by decide)]
  · rintro rfl
    rw [createErrorResponse_hit emsg dmsg dataMsg 503 (by decide)
      ⟨"The AI service is temporarily unavailable.", ErrorType.API_ERROR,
        some "Please try again in a few minutes."⟩ (by decide)]
  · intro hnot
    have hlook := api_messages_miss s h2 h1 hnot
    constructor <;> simp [createErrorResponse, hs0, hlook]

/-- Witness for `createErrorResponse_status_table` at status 418. -/
theorem createErrorResponse_status_table_witness :
    (100 ≤ 418 ∧ 418 < 600)
    ∧ ((createErrorResponse
          (ErrVal.jsError "boom" (some ⟨418, some "teapot"⟩)) "d").statusCode = 418
      ∧ (418 = 429 →
          (createErrorResponse
              (ErrVal.jsError "boom" (some ⟨418, some "teapot"⟩)) "d").type
              = ErrorType.API_ERROR
          ∧ (createErrorResponse
              (ErrVal.jsError "boom" (some ⟨418, some "teapot"⟩)) "d").message
              = "The selected AI model is currently at capacity.")
      ∧ (418 = 401 →
          (createErrorResponse
            (ErrVal.jsError "boom" (some ⟨418, some "teapot"⟩)) "d").type
            = ErrorType.AUTHENTICATION_ERROR)
      ∧ (418 = 403 →
          (createErrorResponse
            (ErrVal.jsError "boom" (some ⟨418, some "teapot"⟩)) "d").type
            = ErrorType.AUTHENTICATION_ERROR)
      ∧ (418 = 400 →
          (createErrorResponse
            (ErrVal.jsError "boom" (some ⟨418, some "teapot"⟩)) "d").type
            = ErrorType.VALIDATION_ERROR)
      ∧ (418 = 500 →
          (createErrorResponse
            (ErrVal.jsError "boom" (some ⟨418, some "teapot"⟩)) "d").type
            = ErrorType.API_ERROR)
      ∧ (418 = 503 →
          (createErrorResponse
            (ErrVal.jsError "boom" (some ⟨418, some "teapot"⟩)) "d").type
            = ErrorType.API_ERROR)
      ∧ (418 ∉ ([429, 401, 403, 400, 500, 503] : List Nat) →
          (createErrorResponse
              (ErrVal.jsError "boom" (some ⟨418, some "teapot"⟩)) "d").type
              = ErrorType.API_ERROR
          ∧ (createErrorResponse
              (ErrVal.jsError "boom" (some ⟨418, some "teapot"⟩)) "d").message
              = "API Error (" ++ Nat.repr 418 ++ "): " ++ orElseStr (some "teapot") "boom")) :=
  ⟨by decide,
    createErrorResponse_status_table 418 "boom" "d" (some "teapot") (by decide)⟩

/-- C6: `createErrorResponse` is an idempotent pass-through on values
already carrying the internal error shape; a status-less `Error` whose
message contains `"network"` or `"connect"` is classified
`NETWORK_ERROR` with status 503; every other status-less `Error`, and
every non-`Error` value, is classified `UNKNOWN_ERROR` with status 500
carrying the caller-supplied default message.  (Totality and
determinism hold by construction: the model is a total Lean
function.) -/
theorem createErrorResponse_nonstatus_branches :
    (∀ (e : ErrVal) (d d' : String),
      createErrorResponse (ErrVal.chatErr (createErrorResponse e d)) d'
        = createErrorResponse e d)
    ∧ (∀ (msg d : String) (resp : Option ErrResponse),
        respHasStatus resp = false →
        (strIncludes msg "network" || strIncludes msg "connect") = true →
        createErrorResponse (ErrVal.jsError msg resp) d
          = ⟨"Unable to connect to the AI service.", 503, ErrorType.NETWORK_ERROR,
              some "Please check your internet connection and try again."⟩)
    ∧ (∀ (msg d : String) (resp : Option ErrResponse),
        respHasStatus resp = false →
        (strIncludes msg "network" || strIncludes msg "connect") = false →
        createErrorResponse (ErrVal.jsError msg resp) d
          = ⟨d, 500, ErrorType.UNKNOWN_ERROR,
              some "Please try again later or contact support if the issue persists."⟩)
    ∧ (∀ d : String,
        createErrorResponse ErrVal.other d
          = ⟨d, 500, ErrorType.UNKNOWN_ERROR,
              some "Please try again later or contact support if the issue persists."⟩) := by
  refine ⟨fun e d d' => rfl, ?_, ?_, fun d => rfl⟩
  · intro msg d resp h0 hkw
    match resp with
    | none => simp [createErrorResponse, networkOrDefault, hkw]
    | some r =>
      have : r.status = 0 := by
        by_contra hne
        simp [respHasStatus, hne] at h0
      simp [createErrorResponse, this, networkOrDefault, hkw]
  · intro msg d resp h0 hkw
    match resp with
    | none => simp [createErrorResponse, networkOrDefault, hkw, defaultChatError]
    | some r =>
      have : r.status = 0 := by
        by_contra hne
        simp [respHasStatus, hne] at h0
      simp [createErrorResponse, this, networkOrDefault, hkw, defaultChatError]

/-- Witness for `createErrorResponse_nonstatus_branches`. -/
theorem createErrorResponse_nonstatus_branches_witness :
    createErrorResponse (ErrVal.chatErr (createErrorResponse ErrVal.other "a")) "b"
        = createErrorResponse ErrVal.other "a"
    ∧ createErrorResponse (ErrVal.jsError "network down" none) "d"
        = ⟨"Unable to connect to the AI service.", 503, ErrorType.NETWORK_ERROR,
            some "Please check your internet connection and try again."⟩
    ∧ createErrorResponse (ErrVal.jsError "boom" none) "d"
        = ⟨"d", 500, ErrorType.UNKNOWN_ERROR,
            some "Please try again later or contact support if the issue persists."⟩
    ∧ createErrorResponse ErrVal.other "d"
        = ⟨"d", 500, ErrorType.UNKNOWN_ERROR,
            some "Please try again later or contact support if the issue persists."⟩ :=
  ⟨createErrorResponse_nonstatus_branches.1 ErrVal.other "a" "b",
    createErrorResponse_nonstatus_branches.2.1 "network down" "d" none (by decide) (by decide),
    createErrorResponse_nonstatus_branches.2.2.1 "boom" "d" none (by decide) (by decide),
    createErrorResponse_nonstatus_branches.2.2.2 "d"⟩

/-- The response-body invariant: either the success branch (no
`error`, no `errorType`) or the failure branch (`reply` empty and both
`error` and `errorType` present) is populated, never a mixture. -/
def exclusiveBranches (b : RespBody) : Prop :=
  (b.error = none ∧ b.errorType = none)
  ∨ (b.reply = "" ∧ b.error ≠ none ∧ b.errorType ≠ none)

instance (b : RespBody) : Decidable (exclusiveBranches b) := by
  unfold exclusiveBranches
  infer_instance

lemma exclusiveBranches_error (e : ChatError) :
    exclusiveBranches (errorRespBody e) :=
  Or.inr ⟨rfl, by simp [errorRespBody], by simp [errorRespBody]⟩

lemma exclusiveBranches_reply (r : String) :
    exclusiveBranches (replyRespBody r) :=
  Or.inl ⟨rfl, rfl⟩

/-- C2: every response body a handler returns satisfies the
`reply`/`error` invariant: `reply` is always present as a string, and
exactly one of the success / failure branches is populated — on
success `error` (and `errorType`) are absent, on failure `reply` is
the empty string and both `error` and `errorType` are present.  For
the router, the forwarded adapter bodies are assumed well-formed (the
three adapter clauses discharge exactly that). -/
theorem handlers_exclusive_branches :
    (∀ (hasKey : Bool) (body : RawBody) (up : DSUpstream),
      exclusiveBranches (deepseekPOST hasKey body up).body)
    ∧ (∀ (hasKey : Bool) (body : RawBody) (up : OAIUpstream),
        exclusiveBranches (openaiPOST hasKey body up).body)
    ∧ (∀ (hasKey : Bool) (body : RawBody) (up : GemUpstream),
        exclusiveBranches (geminiPOST hasKey body up).body)
    ∧ (∀ (body : RawBody) (adapters : AIModel → RespBody × Nat),
        (∀ m : AIModel, exclusiveBranches (adapters m).1) →
        exclusiveBranches (routerPOST body adapters).body) := by
  refine ⟨?_, ?_, ?_, ?_⟩
  · intro hasKey body up
    unfold deepseekPOST
    split
    · exact exclusiveBranches_error _
    · split
      · exact exclusiveBranches_error _
      · split
        · exact exclusiveBranches_error _
        · split
          · exact exclusiveBranches_error _
          · exact exclusiveBranches_reply _
  · intro hasKey body up
    unfold openaiPOST
    split
    · exact exclusiveBranches_error _
    · split
      · exact exclusiveBranches_error _
      · split
        · exact exclusiveBranches_error _
        · split
          · exact exclusiveBranches_error _
          · split
            · exact Or.inl ⟨rfl, rfl⟩
            · exact Or.inl ⟨rfl, rfl⟩
  · intro hasKey body up
    unfold geminiPOST
    split
    · exact exclusiveBranches_error _
    · split
      · exact exclusiveBranches_error _
      · split
        · exact exclusiveBranches_error _
        · split
          · exact exclusiveBranches_error _
          · split
            · exact exclusiveBranches_reply _
            · exact exclusiveBranches_reply _
  · intro body adapters hwf
    unfold routerPOST
    split
    · exact exclusiveBranches_error _
    · split
      · exact exclusiveBranches_error _
      · exact hwf _

/-- Witness for `handlers_exclusive_branches`. -/
theorem handlers_exclusive_branches_witness :
    exclusiveBranches
      (deepseekPOST true ⟨some "deepseek", MessagesField.arr [⟨some "user", some "hi"⟩],
        none, none⟩ ⟨none, some "Hello!"⟩).body
    ∧ exclusiveBranches
        (openaiPOST true ⟨some "openai", MessagesField.arr [⟨some "user", some "hi"⟩],
          none, none⟩ ⟨none, [], some "Hello!", none⟩).body
    ∧ exclusiveBranches
        (geminiPOST true ⟨some "gemini", MessagesField.arr [⟨some "user", some "hi"⟩],
          none, none⟩ ⟨none, [], some "Hello!"⟩).body
    ∧ exclusiveBranches
        (routerPOST ⟨some "openai", MessagesField.arr [⟨some "user", some "hi"⟩],
          none, none⟩ (fun _ => (replyRespBody "Hello!", 200))).body :=
  ⟨handlers_exclusive_branches.1 true _ _,
    handlers_exclusive_branches.2.1 true _ _,
    handlers_exclusive_branches.2.2.1 true _ _,
    handlers_exclusive_branches.2.2.2 _ _ fun _ => exclusiveBranches_reply "Hello!"⟩

/-- C3: with the provider API key environment variable absent
(`hasKey = false`), every adapter returns a `CONFIGURATION_ERROR`
response with HTTP status 500 and performs zero outbound provider
calls. -/
theorem missing_key_configuration_error :
    ∀ (body : RawBody),
      (∀ up : DSUpstream,
        (deepseekPOST false body up).status = 500
        ∧ (deepseekPOST false body up).body.errorType = some ErrorType.CONFIGURATION_ERROR
        ∧ (deepseekPOST false body up).providerCalls = [])
      ∧ (∀ up : OAIUpstream,
          (openaiPOST false body up).status = 500
          ∧ (openaiPOST false body up).body.errorType = some ErrorType.CONFIGURATION_ERROR
          ∧ (openaiPOST false body up).providerCalls = [])
      ∧ (∀ up : GemUpstream,
          (geminiPOST false body up).status = 500
          ∧ (geminiPOST false body up).body.errorType = some ErrorType.CONFIGURATION_ERROR
          ∧ (geminiPOST false body up).providerCalls = []) :=
  fun _ =>
    ⟨fun _ => ⟨rfl, rfl, rfl⟩, fun _ => ⟨rfl, rfl, rfl⟩, fun _ => ⟨rfl, rfl, rfl⟩⟩

/-- C4: a request whose `model` is not one of the three known values
(and whose `messages` field is an array, so the cleaning step
succeeds) is rejected by schema validation: the router returns status
400 with `errorType = VALIDATION_ERROR` — the branch C4 allows when
validation already rejects the value — and dispatches to no adapter. -/
theorem router_unknown_model_rejected
    (body : RawBody) (ms : List RawMsg) (adapters : AIModel → RespBody × Nat)
    (hm : body.messages = MessagesField.arr ms)
    (hmodel : parseModel body.model = none) :
    (routerPOST body adapters).status = 400
    ∧ (routerPOST body adapters).body.errorType = some ErrorType.VALIDATION_ERROR
    ∧ (routerPOST body adapters).body.error = some "Invalid request format"
    ∧ (routerPOST body adapters).adapterCalls = [] := by
  obtain ⟨md, msgs, st, par⟩ := body
  simp only at hm
  subst hm
  simp only [routerPOST, cleanMessages, validateBody] at *
  rw [hmodel]
  exact ⟨rfl, rfl, rfl, rfl⟩

/-- Witness for `router_unknown_model_rejected` with model
`"claude"`. -/
theorem router_unknown_model_rejected_witness :
    ((⟨some "claude", MessagesField.arr [⟨some "user", some "hi"⟩], none, none⟩ :
        RawBody).messages = MessagesField.arr [⟨some "user", some "hi"⟩]
      ∧ parseModel (some "claude") = none)
    ∧ ((routerPOST ⟨some "claude", MessagesField.arr [⟨some "user", some "hi"⟩], none, none⟩
          (fun _ => (replyRespBody "ok", 200))).status = 400
      ∧ (routerPOST ⟨some "claude", MessagesField.arr [⟨some "user", some "hi"⟩], none, none⟩
          (fun _ => (replyRespBody "ok", 200))).body.errorType
            = some ErrorType.VALIDATION_ERROR
      ∧ (routerPOST ⟨some "claude", MessagesField.arr [⟨some "user", some "hi"⟩], none, none⟩
          (fun _ => (replyRespBody "ok", 200))).body.error = some "Invalid request format"
      ∧ (routerPOST ⟨some "claude", MessagesField.arr [⟨some "user", some "hi"⟩], none, none⟩
          (fun _ => (replyRespBody "ok", 200))).adapterCalls = []) :=
  ⟨⟨rfl, rfl⟩,
    router_unknown_model_rejected _ [⟨some "user", some "hi"⟩] _ rfl rfl⟩

/-- C5: the content-cleaning step maps absent and whitespace-only
content to the empty string, and schema validation is indifferent to
content: its outcome on a message does not depend on the content
string, and a message with a valid role and empty content is
accepted. -/
theorem clean_content_and_validation :
    cleanContent none = ""
    ∧ (∀ s : String, jsTrim s = "" → cleanContent (some s) = "")
    ∧ (∀ (r : Option String) (c c' : String),
        (validateMsg ⟨r, c⟩).isSome = (validateMsg ⟨r, c'⟩).isSome)
    ∧ (∀ (r : Option String) (mr : MessageRole),
        parseRole r = some mr → validateMsg ⟨r, ""⟩ = some ⟨mr, ""⟩) := by
  refine ⟨rfl, ?_, ?_, ?_⟩
  · intro s hs
    simp [cleanContent, hs]
  · intro r c c'
    cases h : parseRole r <;>
      simp [validateMsg, h, Nat.zero_le]
  · intro r mr h
    simp [validateMsg, h, Nat.zero_le]

/-- Witness for `clean_content_and_validation`: whitespace-only
content cleans to `""` and an empty-content user message is
accepted. -/
theorem clean_content_and_validation_witness :
    (jsTrim "  \t " = "" ∧ cleanContent (some "  \t ") = "")
    ∧ (parseRole (some "user") = some MessageRole.user
      ∧ validateMsg ⟨some "user", ""⟩ = some ⟨MessageRole.user, ""⟩) :=
  ⟨⟨by decide, clean_content_and_validation.2.1 "  \t " (by decide)⟩,
    ⟨rfl, clean_content_and_validation.2.2.2 (some "user") MessageRole.user rfl⟩⟩

/-- C7: the Gemini adapter's message formatting maps each message to
a single text part and translates `assistant` to the provider role
`model` while `user` and `system` both become `user`; and when the
provider returns no candidates, the adapter returns a success body
with an empty `reply` and status 200 rather than an error. -/
theorem gemini_role_translation_empty_candidates
    (body : RawBody) (cleaned : List CleanedMsg) (req : ChatRequest)
    (hc : cleanMessages body.messages = Except.ok cleaned)
    (hv : validateBody body cleaned = some req)
    (hs : req.stream ≠ some true) :
    (∀ c : String,
      geminiContents [⟨MessageRole.assistant, c⟩] = [⟨GemRole.model, [c]⟩]
      ∧ geminiContents [⟨MessageRole.user, c⟩] = [⟨GemRole.user, [c]⟩]
      ∧ geminiContents [⟨MessageRole.system, c⟩] = [⟨GemRole.user, [c]⟩])
    ∧ (∀ (ms : List ValidMsg) (m : ValidMsg), m ∈ ms →
        (⟨if m.role = MessageRole.assistant then GemRole.model else GemRole.user,
          [m.content]⟩ : GemContent) ∈ geminiContents ms)
    ∧ geminiPOST true body ⟨none, [], none⟩
        = ⟨replyRespBody "", 200, [geminiCallBody (geminiContents req.messages)]⟩ := by
  refine ⟨fun c => ⟨rfl, rfl, rfl⟩, ?_, ?_⟩
  · intro ms m hm
    exact List.mem_map_of_mem _ hm
  · simp [geminiPOST, hc, hv, hs]

/-- Witness for `gemini_role_translation_empty_candidates`: a single
`assistant` message, no candidates upstream. -/
theorem gemini_role_translation_empty_candidates_witness :
    (cleanMessages
        (⟨some "gemini", MessagesField.arr [⟨some "assistant", some "prior"⟩], none, none⟩ :
          RawBody).messages
        = Except.ok [⟨some "assistant", "prior"⟩]
      ∧ validateBody
          ⟨some "gemini", MessagesField.arr [⟨some "assistant", some "prior"⟩], none, none⟩
          [⟨some "assistant", "prior"⟩]
          = some ⟨AIModel.gemini, [⟨MessageRole.assistant, "prior"⟩], none, none⟩
      ∧ (⟨AIModel.gemini, [⟨MessageRole.assistant, "prior"⟩], none, none⟩ :
          ChatRequest).stream ≠ some true)
    ∧ ((∀ c : String,
        geminiContents [⟨MessageRole.assistant, c⟩] = [⟨GemRole.model, [c]⟩]
        ∧ geminiContents [⟨MessageRole.user, c⟩] = [⟨GemRole.user, [c]⟩]
        ∧ geminiContents [⟨MessageRole.system, c⟩] = [⟨GemRole.user, [c]⟩])
      ∧ (∀ (ms : List ValidMsg) (m : ValidMsg), m ∈ ms →
          (⟨if m.role = MessageRole.assistant then GemRole.model else GemRole.user,
            [m.content]⟩ : GemContent) ∈ geminiContents ms)
      ∧ geminiPOST true
          ⟨some "gemini", MessagesField.arr [⟨some "assistant", some "prior"⟩], none, none⟩
          ⟨none, [], none⟩
          = ⟨replyRespBody "", 200,
              [geminiCallBody
                (geminiContents
                  (⟨AIModel.gemini, [⟨MessageRole.assistant, "prior"⟩], none, none⟩ :
                    ChatRequest).messages)]⟩) :=
  ⟨⟨rfl, rfl, by decide⟩,
    gemini_role_translation_empty_candidates _ _ _ rfl rfl (by decide)⟩

/-- C10: when the inbound payload's `messages` field is absent or not
an array, the pre-validation cleaning step throws before schema
validation, and the client receives `UNKNOWN_ERROR` with HTTP status
500 (not a 400 `VALIDATION_ERROR`) from every handler, with no
outbound call. -/
theorem missing_messages_unknown_error
    (body : RawBody)
    (hm : body.messages = MessagesField.absent ∨ body.messages = MessagesField.notArray) :
    (∀ adapters : AIModel → RespBody × Nat,
      (routerPOST body adapters).status = 500
      ∧ (routerPOST body adapters).body.errorType = some ErrorType.UNKNOWN_ERROR
      ∧ (routerPOST body adapters).body.error = some "An unexpected error occurred"
      ∧ (routerPOST body adapters).adapterCalls = [])
    ∧ (∀ up : DSUpstream,
        (deepseekPOST true body up).status = 500
        ∧ (deepseekPOST true body up).body.errorType = some ErrorType.UNKNOWN_ERROR
        ∧ (deepseekPOST true body up).providerCalls = [])
    ∧ (∀ up : OAIUpstream,
        (openaiPOST true body up).status = 500
        ∧ (openaiPOST true body up).body.errorType = some ErrorType.UNKNOWN_ERROR
        ∧ (openaiPOST true body up).providerCalls = [])
    ∧ (∀ up : GemUpstream,
        (geminiPOST true body up).status = 500
        ∧ (geminiPOST true body up).body.errorType = some ErrorType.UNKNOWN_ERROR
        ∧ (geminiPOST true body up).providerCalls = []) := by
  obtain ⟨md, msgs, st, par⟩ := body
  simp only at hm
  rcases hm with hm | hm <;> subst hm <;>
    exact ⟨fun _ => ⟨rfl, rfl, rfl, rfl⟩, fun _ => ⟨rfl, rfl, rfl⟩,
      fun _ => ⟨rfl, rfl, rfl⟩, fun _ => ⟨rfl, rfl, rfl⟩⟩

/-- Witness for `missing_messages_unknown_error` on a payload with no
`messages` field. -/
theorem missing_messages_unknown_error_witness :
    ((⟨some "openai", MessagesField.absent, none, none⟩ : RawBody).messages
        = MessagesField.absent
      ∨ (⟨some "openai", MessagesField.absent, none, none⟩ : RawBody).messages
        = MessagesField.notArray)
    ∧ ((routerPOST ⟨some "openai", MessagesField.absent, none, none⟩
          (fun _ => (replyRespBody "ok", 200))).status = 500
      ∧ (routerPOST ⟨some "openai", MessagesField.absent, none, none⟩
          (fun _ => (replyRespBody "ok", 200))).body.errorType
            = some ErrorType.UNKNOWN_ERROR
      ∧ (deepseekPOST true ⟨some "openai", MessagesField.absent, none, none⟩
          ⟨none, none⟩).providerCalls = []) :=
  ⟨Or.inl rfl,
    ((missing_messages_unknown_error
        ⟨some "openai", MessagesField.absent, none, none⟩ (Or.inl rfl)).1
      (fun _ => (replyRespBody "ok", 200))).1,
    ((missing_messages_unknown_error
        ⟨some "openai", MessagesField.absent, none, none⟩ (Or.inl rfl)).1
      (fun _ => (replyRespBody "ok", 200))).2.1,
    ((missing_messages_unknown_error
        ⟨some "openai", MessagesField.absent, none, none⟩ (Or.inl rfl)).2.1
      ⟨none, none⟩).2.2⟩

/-- Folding `accumChunks` over chunks that all carry text gives the in-order
concatenation of the chunk texts. -/
lemma accumChunks_join (cs : List String) :
    accumChunks (cs.map some) = String.join cs := by
  unfold accumChunks String.join
  rw [List.foldl_map]
  rfl

/-- The Gemini accumulation loop over chunks that all carry text is
also the in-order concatenation of the chunk texts (the `if`-guard
skips only empty contributions). -/
lemma geminiAccum_join (cs : List String) : geminiAccum (cs.map some) = String.join cs := by
  unfold geminiAccum String.join
  rw [List.foldl_map]
  refine List.foldl_ext _ _ "" fun acc s _ => ?_
  by_cases hc : s = ""
  · subst hc
    simp
  · simp [hc]

/-- C8: with streaming requested and a non-throwing upstream, the
OpenAI and Gemini adapters return as `reply` the fold of all
incremental chunks in arrival order; when every chunk carries text the
reply is exactly their concatenation, and in particular chunks
`["Hel", "lo"]` accumulate to `"Hello"`. -/
theorem streaming_chunks_accumulate
    (body : RawBody) (cleaned : List CleanedMsg) (req : ChatRequest)
    (hc : cleanMessages body.messages = Except.ok cleaned)
    (hv : validateBody body cleaned = some req)
    (hstream : req.stream = some true) :
    (∀ up : OAIUpstream, up.throws = none →
      (openaiPOST true body up).body.reply = accumChunks up.chunks
      ∧ (openaiPOST true body up).status = 200
      ∧ (openaiPOST true body up).body.error = none)
    ∧ (∀ up : GemUpstream, up.throws = none →
        (geminiPOST true body up).body.reply = geminiAccum up.chunks
        ∧ (geminiPOST true body up).status = 200
        ∧ (geminiPOST true body up).body.error = none)
    ∧ (∀ cs : List String, accumChunks (cs.map some) = String.join cs)
    ∧ (∀ cs : List String, geminiAccum (cs.map some) = String.join cs)
    ∧ accumChunks [some "Hel", some "lo"] = "Hello"
    ∧ geminiAccum [some "Hel", some "lo"] = "Hello" := by
  refine ⟨?_, ?_, accumChunks_join, geminiAccum_join, by decide, by decide⟩
  · intro up hth
    obtain ⟨th, ch, co, us⟩ := up
    simp only at hth
    subst hth
    refine ⟨?_, ?_, ?_⟩ <;> simp [openaiPOST, hc, hv, hstream]
  · intro up hth
    obtain ⟨th, ch, ct⟩ := up
    simp only at hth
    subst hth
    refine ⟨?_, ?_, ?_⟩ <;> simp [geminiPOST, hc, hv, hstream, replyRespBody]

/-- Witness for `streaming_chunks_accumulate`: a streaming request
whose upstream yields `["Hel", "lo"]`. -/
theorem streaming_chunks_accumulate_witness :
    (cleanMessages
        (⟨some "openai", MessagesField.arr [⟨some "user", some "hi"⟩], some true, none⟩ :
          RawBody).messages
        = Except.ok [⟨some "user", "hi"⟩]
      ∧ validateBody
          ⟨some "openai", MessagesField.arr [⟨some "user", some "hi"⟩], some true, none⟩
          [⟨some "user", "hi"⟩]
          = some ⟨AIModel.openai, [⟨MessageRole.user, "hi"⟩], some true, none⟩
      ∧ (⟨AIModel.openai, [⟨MessageRole.user, "hi"⟩], some true, none⟩ :
          ChatRequest).stream = some true)
    ∧ (openaiPOST true
        ⟨some "openai", MessagesField.arr [⟨some "user", some "hi"⟩], some true, none⟩
        ⟨none, [some "Hel", some "lo"], none, none⟩).body.reply
        = accumChunks (⟨(none : Option ErrVal), [some "Hel", some "lo"],
            (none : Option String), (none : Option Usage)⟩ : OAIUpstream).chunks
    ∧ (geminiPOST true
        ⟨some "openai", MessagesField.arr [⟨some "user", some "hi"⟩], some true, none⟩
        ⟨none, [some "Hel", some "lo"], none⟩).body.reply
        = geminiAccum (⟨(none : Option ErrVal), [some "Hel", some "lo"],
            (none : Option String)⟩ : GemUpstream).chunks
    ∧ accumChunks [some "Hel", some "lo"] = "Hello" :=
  ⟨⟨rfl, rfl, rfl⟩,
    ((streaming_chunks_accumulate
        ⟨some "openai", MessagesField.arr [⟨some "user", some "hi"⟩], some true, none⟩
        [⟨some "user", "hi"⟩]
        ⟨AIModel.openai, [⟨MessageRole.user, "hi"⟩], some true, none⟩ rfl rfl rfl).1
      ⟨none, [some "Hel", some "lo"], none, none⟩ rfl).1,
    ((streaming_chunks_accumulate
        ⟨some "openai", MessagesField.arr [⟨some "user", some "hi"⟩], some true, none⟩
        [⟨some "user", "hi"⟩]
        ⟨AIModel.openai, [⟨MessageRole.user, "hi"⟩], some true, none⟩ rfl rfl rfl).2.1
      ⟨none, [some "Hel", some "lo"], none⟩ rfl).1,
    (streaming_chunks_accumulate
        ⟨some "openai", MessagesField.arr [⟨some "user", some "hi"⟩], some true, none⟩
        [⟨some "user", "hi"⟩]
        ⟨AIModel.openai, [⟨MessageRole.user, "hi"⟩], some true, none⟩
        rfl rfl rfl).2.2.2.2.1⟩

/-- Association lookup distributes over append, first list first. -/
lemma lookup_append {α β : Type} [BEq α] (k : α) (l₁ l₂ : List (α × β)) :
    List.lookup k (l₁ ++ l₂)
      = ((List.lookup k l₁).orElse fun _ => List.lookup k l₂) := by
  induction l₁ with
  | nil => rfl
  | cons a t ih =>
    obtain ⟨x, y⟩ := a
    simp only [List.cons_append, List.lookup]
    cases hkx : k == x
    · exact ih
    · rfl

/-- Lookup of a key absent from the key list yields `none`. -/
lemma lookup_eq_none_of_not_mem {α β : Type} [BEq α] [LawfulBEq α] (k : α)
    (l : List (α × β)) (h : k ∉ l.map Prod.fst) : List.lookup k l = none := by
  induction l with
  | nil => rfl
  | cons a t ih =>
    obtain ⟨x, y⟩ := a
    simp only [List.map_cons, List.mem_cons, not_or] at h
    obtain ⟨h1, h2⟩ := h
    simp only [List.lookup]
    cases hkx : k == x
    · exact ih h2
    · exact absurd (eq_of_beq hkx) h1

/-- On an association list with distinct keys, lookup is insensitive
to reversal. -/
lemma lookup_reverse_of_nodup {α β : Type} [BEq α] [LawfulBEq α] (k : α)
    (l : List (α × β)) (h : (l.map Prod.fst).Nodup) :
    List.lookup k l.reverse = List.lookup k l := by
  induction l with
  | nil => rfl
  | cons a t ih =>
    obtain ⟨x, y⟩ := a
    simp only [List.map_cons, List.nodup_cons] at h
    obtain ⟨hx, ht⟩ := h
    simp only [List.reverse_cons]
    rw [lookup_append, ih ht]
    cases hkx : k == x
    · have hnone : List.lookup k [(x, y)] = none := by simp [List.lookup, hkx]
      rw [hnone]
      simp only [List.lookup, hkx]
      cases List.lookup k t <;> rfl
    · have hnone : List.lookup k t = none :=
        lookup_eq_none_of_not_mem k t (by rw [eq_of_beq hkx]; exact hx)
      rw [hnone]
      simp [List.lookup, hkx]

/-- Spread-merge lookup: a binding in the overriding bag wins, a key
absent from it falls through to the base object. -/
lemma get_append_nodup (base params : JObj) (k : String)
    (h : (params.map Prod.fst).Nodup) :
    JObj.get (base ++ params) k
      = ((List.lookup k params).orElse fun _ => JObj.get base k) := by
  unfold JObj.get
  rw [List.reverse_append, lookup_append, lookup_reverse_of_nodup k params h]

/-- C9: the DeepSeek and OpenAI provider request bodies are the fixed
defaults merged with the client `parameters` bag with later-wins
precedence: every key present in `parameters` (any key — `model`,
`messages`, `stream` included) reaches the upstream request with the
client's value, and every default survives exactly when its key is
absent from `parameters`. -/
theorem parameters_override
    (msgs : List ValidMsg) (stream : Option Bool) (params : JObj)
    (hnd : (params.map Prod.fst).Nodup) :
    (∀ (k : String) (v : JVal), List.lookup k params = some v →
      JObj.get (dsRequestBody msgs params) k = some v
      ∧ JObj.get (oaiCreateBody msgs stream params) k = some v)
    ∧ (List.lookup "model" params = none →
        JObj.get (dsRequestBody msgs params) "model" = some (JVal.str "deepseek-chat")
        ∧ JObj.get (oaiCreateBody msgs stream params) "model"
            = some (JVal.str "gpt-3.5-turbo"))
    ∧ (List.lookup "temperature" params = none →
        JObj.get (dsRequestBody msgs params) "temperature" = some (JVal.num (7 / 10))
        ∧ JObj.get (oaiCreateBody msgs stream params) "temperature"
            = some (JVal.num (7 / 10)))
    ∧ (List.lookup "max_tokens" params = none →
        JObj.get (dsRequestBody msgs params) "max_tokens" = some (JVal.num 1000)
        ∧ JObj.get (oaiCreateBody msgs stream params) "max_tokens"
            = some (JVal.num 1000))
    ∧ (List.lookup "top_p" params = none →
        JObj.get (oaiCreateBody msgs stream params) "top_p" = some (JVal.num 1))
    ∧ (List.lookup "presence_penalty" params = none →
        JObj.get (oaiCreateBody msgs stream params) "presence_penalty"
          = some (JVal.num 0))
    ∧ (List.lookup "frequency_penalty" params = none →
        JObj.get (oaiCreateBody msgs stream params) "frequency_penalty"
          = some (JVal.num 0)) := by
  refine ⟨?_, ?_, ?_, ?_, ?_, ?_, ?_⟩
  · intro k v hk
    unfold dsRequestBody oaiCreateBody
    rw [get_append_nodup _ params k hnd, get_append_nodup _ params k hnd, hk]
    exact ⟨rfl, rfl⟩
  all_goals intro hk
  · constructor
    · unfold dsRequestBody
      rw [get_append_nodup _ params _ hnd, hk]
      rfl
    · unfold oaiCreateBody
      rw [get_append_nodup _ params _ hnd, hk]
      rfl
  · constructor
    · unfold dsRequestBody
      rw [get_append_nodup _ params _ hnd, hk]
      rfl
    · unfold oaiCreateBody
      rw [get_append_nodup _ params _ hnd, hk]
      rfl
  · constructor
    · unfold dsRequestBody
      rw [get_append_nodup _ params _ hnd, hk]
      rfl
    · unfold oaiCreateBody
      rw [get_append_nodup _ params _ hnd, hk]
      rfl
  · unfold oaiCreateBody
    rw [get_append_nodup _ params _ hnd, hk]
    rfl
  · unfold oaiCreateBody
    rw [get_append_nodup _ params _ hnd, hk]
    rfl
  · unfold oaiCreateBody
    rw [get_append_nodup _ params _ hnd, hk]
    rfl

/-- Witness for `parameters_override`: a `parameters` bag overriding
`temperature` and `model`, leaving `max_tokens` at its default. -/
theorem parameters_override_witness :
    (([("temperature", JVal.num 0), ("model", JVal.str "x")] :
        JObj).map Prod.fst).Nodup
    ∧ List.lookup "temperature"
        ([("temperature", JVal.num 0), ("model", JVal.str "x")] : JObj)
        = some (JVal.num 0)
    ∧ JObj.get (dsRequestBody [] [("temperature", JVal.num 0), ("model", JVal.str "x")])
        "temperature" = some (JVal.num 0)
    ∧ JObj.get (oaiCreateBody [] none [("temperature", JVal.num 0), ("model", JVal.str "x")])
        "model" = some (JVal.str "x")
    ∧ JObj.get (dsRequestBody [] [("temperature", JVal.num 0), ("model", JVal.str "x")])
        "max_tokens" = some (JVal.num 1000) :=
  ⟨by decide, by decide,
    ((parameters_override [] none [("temperature", JVal.num 0), ("model", JVal.str "x")]
        (by decide)).1 "temperature" (JVal.num 0) (by decide)).1,
    ((parameters_override [] none [("temperature", JVal.num 0), ("model", JVal.str "x")]
        (by decide)).1 "model" (JVal.str "x") (by decide)).2,
    ((parameters_override [] none [("temperature", JVal.num 0), ("model", JVal.str "x")]
        (by decide)).2.2.2.1 (by decide)).1⟩

end AiChat
